import Mathlib

/-!
Shallow embedding of `src/render_gl/shader.rs` from the 3drustgame repository:
shader compilation, program linking, uniform reflection, and typed uniform
setting, over an abstract GL driver.

The GL driver is modelled as a deterministic oracle (`GLDriver`): each raw
`gl.*` call the Rust code makes is mirrored by reading the oracle and by
appending an event to an explicit call trace (`List GLCall`), so that
frame-effect claims ("no upload call is issued", "the loader is never
invoked") are statable.  C-buffer mechanics (the whitespace `CString`
scratch buffers the Rust code hands to the driver to be filled) are below
this abstraction: a driver query that fills a buffer is modelled as the
oracle returning the string directly.
-/

namespace RenderGL

/-- `gl::types::GLenum` — a plain machine word. -/
abbrev GLenum := Nat

/-- `gl::types::GLfloat` — an opaque carrier for the float value.  The Rust
code never computes on the value, it only passes it through to
`gl.Uniform1f`, so the carrier type is irrelevant; we use `Nat`. -/
abbrev GLfloat := Nat

/-- `gl::VERTEX_SHADER`. -/
def VERTEX_SHADER : GLenum := 0x8B31

/-- `gl::FRAGMENT_SHADER`. -/
def FRAGMENT_SHADER : GLenum := 0x8B30

/-- `gl::FLOAT`. -/
def FLOAT : GLenum := 0x1406

/-- `gl::FLOAT_VEC4`, used only to build concrete counterexample tables. -/
def FLOAT_VEC4 : GLenum := 0x8B52

/-- `gl::ZERO`. -/
def ZERO : GLenum := 0

/-- Rust `str::ends_with`: the pattern's characters are a suffix of the
string's characters. -/
def ends_with (s pat : String) : Bool :=
  List.isSuffixOf pat.data s.data

/-- One observable call made by the code: either a raw GL driver call or a
call into the external resource loader. -/
inductive GLCall where
  | createShader (kind : GLenum) (id : Nat)
  | shaderSource (id : Nat)
  | compileShader (id : Nat)
  | deleteShader (id : Nat)
  | createProgram (id : Nat)
  | attachShader (pid : Nat) (sid : Nat)
  | linkProgram (pid : Nat)
  | detachShader (pid : Nat) (sid : Nat)
  | deleteProgram (pid : Nat)
  | getActiveUniform (pid : Nat) (index : Nat)
  | getUniformLocation (pid : Nat) (name : String)
  | uniform1f (loc : Int) (value : GLfloat)
  | useProgram (pid : Nat)
  | loadResource (name : String)
deriving DecidableEq, Repr

/-- The GL driver as a deterministic oracle.  Only one shader object exists
per `shader_from_source` call and only one program object per
`from_shaders` call, so status/log queries are keyed by the object id (or
not keyed at all for the single program). -/
structure GLDriver where
  /-- id returned by `gl.CreateShader kind`. -/
  createShader : GLenum → Nat
  /-- `COMPILE_STATUS` for a shader id: `true` iff the driver writes a
  nonzero status. -/
  compileStatus : Nat → Bool
  /-- the log text `gl.GetShaderInfoLog` writes for a shader id. -/
  shaderInfoLog : Nat → String
  /-- id returned by `gl.CreateProgram`. -/
  createProgramId : Nat
  /-- `LINK_STATUS`: `true` iff the driver writes a nonzero status. -/
  linkStatus : Bool
  /-- the log text `gl.GetProgramInfoLog` writes. -/
  programInfoLog : String
  /-- the `GLint` written by `gl.GetProgramiv(id, ACTIVE_UNIFORMS, ..)`. -/
  activeUniformCount : Int
  /-- name and declared type written by `gl.GetActiveUniform` at an index.
  The name is what the driver writes through the 255-byte window the code
  hands it (`bufSize` 255), so it is at most 254 characters and is followed
  in the buffer by a NUL terminator. -/
  activeUniform : Nat → String × GLenum
  /-- `gl.GetUniformLocation` by name. -/
  uniformLocation : String → Int

/-- Decidable equality for `Except`, so that concrete runs can be checked
by `decide`. -/
instance {ε α : Type} [DecidableEq ε] [DecidableEq α] :
    DecidableEq (Except ε α) := fun x y =>
  match x, y with
  | Except.ok a, Except.ok b =>
    if h : a = b then isTrue (by rw [h])
    else isFalse (fun hc => h (Except.ok.inj hc))
  | Except.error a, Except.error b =>
    if h : a = b then isTrue (by rw [h])
    else isFalse (fun hc => h (Except.error.inj hc))
  | Except.ok _, Except.error _ => isFalse (fun hc => Except.noConfusion hc)
  | Except.error _, Except.ok _ => isFalse (fun hc => Except.noConfusion hc)

/-- `resources::Error`, opaque to this module. -/
abbrev ResError := String

/-- The external `Resources` collaborator: `load_cstring` either yields the
null-terminated source text or a loader error. -/
structure Resources where
  load_cstring : String → Except ResError String

/-- The `Error` enum of `shader.rs`. -/
inductive Error where
  | ResourceLoad (name : String) (inner : ResError)
  | CanNotDetermineShaderTypeForResource (name : String)
  | CompileError (name : String) (message : String)
  | LinkError (name : String) (message : String)
deriving DecidableEq, Repr

/-- `struct Uniform { id: GLint, typ: GLenum }`. -/
structure Uniform where
  id : Int
  typ : GLenum
deriving DecidableEq, Repr

/-- Model of `HashMap<String, Uniform>`: an association list with
insert-replace semantics. -/
abbrev UniformMap := List (String × Uniform)

/-- Key lookup in the `HashMap` model. -/
def lookupU : UniformMap → String → Option Uniform
  | [], _ => none
  | (k, v) :: rest, name => if k = name then some v else lookupU rest name

/-- `HashMap::insert`: replaces the binding if the key is present,
otherwise appends it. -/
def insertU : UniformMap → String → Uniform → UniformMap
  | [], name, u => [(name, u)]
  | (k, v) :: rest, name, u =>
    if k = name then (name, u) :: rest else (k, v) :: insertU rest name u

/-- `struct Program { gl, id, uniforms }` (the `gl` context clone carries no
semantics and is omitted). -/
structure Program where
  id : Nat
  uniforms : UniformMap
deriving DecidableEq, Repr

/-- `struct Shader { gl, id }` (again without the context clone). -/
structure Shader where
  id : Nat
deriving DecidableEq, Repr

/-- Outcome of `Program::set_uniform1f`.  `ok calls` means the function
returned `Ok(())` after issuing `calls` to the driver; `panicked` models
the `HashMap` `Index` panic on a missing key, where no value is returned
at all. -/
inductive SetUniformResult where
  | ok (calls : List GLCall)
  | panicked
deriving DecidableEq, Repr

/-- `Program::set_uniform1f`.  Mirrors the Rust body exactly:
`&self.uniforms[&name]` panics when `name` is absent; when the declared
type is `FLOAT` it uploads via the cached location; otherwise the body
builds `Err("This uniform takes a float")` as a discarded statement and
control falls through to the final `Ok(())`, so the mismatch branch also
returns `ok` — with no driver call. -/
def Program.set_uniform1f (p : Program) (name : String) (value : GLfloat) :
    SetUniformResult :=
  match lookupU p.uniforms name with
  | none => SetUniformResult.panicked
  | some u =>
    if u.typ = FLOAT then SetUniformResult.ok [GLCall.uniform1f u.id value]
    else SetUniformResult.ok []

/-- `Program::set_used`. -/
def Program.set_used (p : Program) : List GLCall :=
  [GLCall.useProgram p.id]

/-- `impl Drop for Program`: deletes the owned program handle. -/
def Program.drop (p : Program) : List GLCall :=
  [GLCall.deleteProgram p.id]

/-- `impl Drop for Shader`: deletes the owned shader handle. -/
def Shader.drop (s : Shader) : List GLCall :=
  [GLCall.deleteShader s.id]

/-- `create_whitespace_cstring_with_len`: a buffer of `len` spaces.  Kept
for completeness; the log-retrieval calls that fill such a buffer are
modelled by the driver oracle returning the log text directly. -/
def create_whitespace_cstring_with_len (len : Nat) : String :=
  String.mk (List.replicate len ' ')

/-- Free function `shader_from_source`: creates a shader object, submits
the source, compiles, and checks `COMPILE_STATUS`; on failure (`success ==
0`) retrieves the info log and returns it as the error.  Note the failure
path never issues `DeleteShader` for the created id. -/
def shader_from_source (d : GLDriver) (source : String) (kind : GLenum) :
    Except String Nat × List GLCall :=
  let id := d.createShader kind
  let t := [GLCall.createShader kind id, GLCall.shaderSource id,
            GLCall.compileShader id]
  if d.compileStatus id then (Except.ok id, t)
  else (Except.error (d.shaderInfoLog id), t)

/-- `Shader::from_source`: wraps the compiled id in a `Shader`. -/
def Shader.from_source (d : GLDriver) (source : String) (kind : GLenum) :
    Except String Shader × List GLCall :=
  match shader_from_source d source kind with
  | (Except.ok id, t) => (Except.ok ⟨id⟩, t)
  | (Except.error msg, t) => (Except.error msg, t)

/-- The `POSSIBLE_EXT` table of `Shader::from_res`. -/
def POSSIBLE_EXT : List (String × GLenum) :=
  [(".vert", VERTEX_SHADER), (".frag", FRAGMENT_SHADER)]

/-- The stage-inference expression of `Shader::from_res`:
`POSSIBLE_EXT.iter().find(|(ext, _)| name.ends_with(ext)).map(|(_, kind)| kind)`. -/
def shaderKindOf (name : String) : Option GLenum :=
  (POSSIBLE_EXT.find? (fun p => ends_with name p.1)).map (fun p => p.2)

/-- `Shader::from_res`: infers the stage from the name's suffix (failing
with `CanNotDetermineShaderTypeForResource` before touching the loader or
the driver), loads the source, and compiles it, wrapping a compile failure
as `CompileError` with the resource name. -/
def Shader.from_res (d : GLDriver) (res : Resources) (name : String) :
    Except Error Shader × List GLCall :=
  match shaderKindOf name with
  | none => (Except.error (Error.CanNotDetermineShaderTypeForResource name), [])
  | some kind =>
    match res.load_cstring name with
    | Except.error e =>
      (Except.error (Error.ResourceLoad name e), [GLCall.loadResource name])
    | Except.ok source =>
      match Shader.from_source d source kind with
      | (Except.ok s, t) => (Except.ok s, GLCall.loadResource name :: t)
      | (Except.error msg, t) =>
        (Except.error (Error.CompileError name msg), GLCall.loadResource name :: t)

/-- The `name_str` local of `Program::get_uniforms`
(`name.to_str().unwrap().to_owned()`).  `name` is the scratch buffer
`create_whitespace_cstring_with_len(256)`: 256 spaces plus the terminator
`CString::from_vec_unchecked` appends, so its stored length stays 256.
`gl.GetActiveUniform` (with `bufSize` 255) overwrites the front of the
buffer with the uniform's declared name `nm` and a NUL terminator; the
remaining `255 - nm.length` bytes keep their spaces.  The code ignores the
returned `name_len`, and `to_str` strips only the final terminator, so the
conversion yields the whole 256-character buffer: declared name, interior
NUL, space padding — and this padded string, not the declared name, is
what gets used as the `HashMap` key. -/
def name_str (nm : String) : String :=
  nm ++ String.mk ('\x00' :: List.replicate (255 - nm.length) ' ')

/-- The body of the `for u in 0..total` loop of `Program::get_uniforms`,
recursing over the remaining indices with the map and trace accumulated:
each iteration queries name and type by index into the 256-space scratch
buffer, resolves the location by name (`gl.GetUniformLocation` is a raw C
call on the buffer pointer, so it reads only up to the interior NUL, i.e.
the declared name), and inserts the entry — keyed by `name_str`, the whole
buffer converted with the NUL and space padding kept. -/
def get_uniforms_loop (d : GLDriver) (pid : Nat) :
    UniformMap → List GLCall → List Nat → UniformMap × List GLCall
  | m, t, [] => (m, t)
  | m, t, u :: rest =>
    let nm := (d.activeUniform u).1
    let typ := (d.activeUniform u).2
    let loc := d.uniformLocation nm
    get_uniforms_loop d pid (insertU m (name_str nm) ⟨loc, typ⟩)
      (t ++ [GLCall.getActiveUniform pid u, GLCall.getUniformLocation pid nm])
      rest

/-- `Program::get_uniforms`: queries `ACTIVE_UNIFORMS` and runs the loop
over `0..total` (empty when the driver reports a nonpositive count, as for
the Rust `i32` range).  Note the resulting table is keyed by the padded
buffer strings (`name_str`), never by the plain declared names. -/
def Program.get_uniforms (d : GLDriver) (pid : Nat) :
    UniformMap × List GLCall :=
  get_uniforms_loop d pid [] [] (List.range d.activeUniformCount.toNat)

/-- `Program::from_shaders`: creates a program object, attaches every
shader, links, and checks `LINK_STATUS`.  On failure (`success == 0`) it
retrieves the program info log and returns it as the error — without
deleting the created program object.  On success it detaches every shader,
reflects the uniforms, and wraps the handle and table in a `Program`. -/
def Program.from_shaders (d : GLDriver) (shaders : List Shader) :
    Except String Program × List GLCall :=
  let pid := d.createProgramId
  let t := GLCall.createProgram pid ::
    shaders.map (fun s => GLCall.attachShader pid s.id) ++ [GLCall.linkProgram pid]
  if d.linkStatus then
    let reflect := Program.get_uniforms d pid
    (Except.ok ⟨pid, reflect.1⟩,
     t ++ shaders.map (fun s => GLCall.detachShader pid s.id) ++ reflect.2)
  else
    (Except.error d.programInfoLog, t)

/-- The `resource_names` vector of `Program::from_res`. -/
def resource_names (name : String) : List String :=
  [name ++ ".vert", name ++ ".frag"]

/-- The `collect::<Result<Vec<Shader>, Error>>()` step of
`Program::from_res`: resolves each resource name in order and stops at the
first failure (the iterator is lazy, so later names are not resolved). -/
def collectShaders (d : GLDriver) (res : Resources) :
    List String → Except Error (List Shader) × List GLCall
  | [] => (Except.ok [], [])
  | n :: rest =>
    match Shader.from_res d res n with
    | (Except.error e, t) => (Except.error e, t)
    | (Except.ok s, t) =>
      match collectShaders d res rest with
      | (Except.ok ss, t2) => (Except.ok (s :: ss), t ++ t2)
      | (Except.error e, t2) => (Except.error e, t ++ t2)

/-- `Program::from_res`: builds `<name>.vert` / `<name>.frag`, resolves
both shaders (propagating the first failure unchanged), then links,
rewrapping a link failure as `LinkError { name, message }`. -/
def Program.from_res (d : GLDriver) (res : Resources) (name : String) :
    Except Error Program × List GLCall :=
  match collectShaders d res (resource_names name) with
  | (Except.error e, t) => (Except.error e, t)
  | (Except.ok shaders, t) =>
    match Program.from_shaders d shaders with
    | (Except.ok p, t2) => (Except.ok p, t ++ t2)
    | (Except.error message, t2) =>
      (Except.error (Error.LinkError name message), t ++ t2)

/-! ### Concrete instances used by counterexamples and witnesses -/

/-- A program whose table has `u_color` declared `FLOAT_VEC4` (not `FLOAT`). -/
def mismatchProgram : Program := ⟨5, [("u_color", ⟨2, FLOAT_VEC4⟩)]⟩

/-- A program with an empty uniform table. -/
def emptyProgram : Program := ⟨6, []⟩

/-- A program whose table has a `FLOAT` uniform `u_time` at location 3. -/
def floatProgram : Program :=
  ⟨7, [("u_time", ⟨3, FLOAT⟩), ("u_color", ⟨2, FLOAT_VEC4⟩)]⟩

/-- A driver on which compilation and linking both fail. -/
def failDriver : GLDriver where
  createShader := fun _ => 11
  compileStatus := fun _ => false
  shaderInfoLog := fun _ => "syntax error"
  createProgramId := 42
  linkStatus := false
  programInfoLog := "link failed"
  activeUniformCount := 0
  activeUniform := fun _ => ("", ZERO)
  uniformLocation := fun _ => -1

/-- A driver on which everything succeeds; the linked program has two
active uniforms, one of which (`u_color`) has location `-1`. -/
def okDriver : GLDriver where
  createShader := fun kind => kind
  compileStatus := fun _ => true
  shaderInfoLog := fun _ => ""
  createProgramId := 9
  linkStatus := true
  programInfoLog := ""
  activeUniformCount := 2
  activeUniform := fun u => if u = 0 then ("u_time", FLOAT) else ("u_color", FLOAT_VEC4)
  uniformLocation := fun nm => if nm = "u_time" then 3 else -1

/-- A driver on which both compilations succeed but the link fails. -/
def linkFailDriver : GLDriver where
  createShader := fun kind => kind
  compileStatus := fun _ => true
  shaderInfoLog := fun _ => ""
  createProgramId := 42
  linkStatus := false
  programInfoLog := "link failed"
  activeUniformCount := 0
  activeUniform := fun _ => ("", ZERO)
  uniformLocation := fun _ => -1

/-- A loader that serves `tri.vert` and `tri.frag` only. -/
def triRes : Resources :=
  ⟨fun n =>
    if n = "tri.vert" then Except.ok "vert src"
    else if n = "tri.frag" then Except.ok "frag src"
    else Except.error "missing"⟩

/-! ### Claims about `Shader::from_res` and `Program::from_res` -/

/-- A string cannot end with both `".vert"` and `".frag"`: two suffixes of
equal length coincide. -/
theorem not_ends_with_vert_and_frag (s : String) :
    ¬(ends_with s ".vert" = true ∧ ends_with s ".frag" = true) := by
  rintro ⟨h1, h2⟩
  simp only [ends_with, List.isSuffixOf_iff_suffix] at h1 h2
  have hlen : (".vert".data).length = (".frag".data).length := by decide
  have heq : ".vert".data = ".frag".data :=
    (List.suffix_of_suffix_length_le h1 h2 (le_of_eq hlen)).eq_of_length hlen
  exact absurd heq (by decide)

/-- C5: `Shader::from_res` infers the stage from the resource name's
suffix by the fixed mapping `".vert" ↦ VERTEX_SHADER`,
`".frag" ↦ FRAGMENT_SHADER` (the two suffixes are mutually exclusive, so
each clause is unconditional), and on a name matching neither suffix it
fails with `CanNotDetermineShaderTypeForResource` carrying that name. -/
theorem from_res_stage_inference (name : String) :
    (ends_with name ".vert" = true → shaderKindOf name = some VERTEX_SHADER) ∧
    (ends_with name ".frag" = true → shaderKindOf name = some FRAGMENT_SHADER) ∧
    (ends_with name ".vert" = false → ends_with name ".frag" = false →
      ∀ (d : GLDriver) (res : Resources),
        Shader.from_res d res name =
          (Except.error (Error.CanNotDetermineShaderTypeForResource name), [])) := by
  refine ⟨?_, ?_, ?_⟩
  · intro h
    simp [shaderKindOf, POSSIBLE_EXT, h]
  · intro h
    have hv : ends_with name ".vert" = false := by
      cases hv : ends_with name ".vert"
      · rfl
      · exact absurd ⟨hv, h⟩ (not_ends_with_vert_and_frag name)
    simp [shaderKindOf, POSSIBLE_EXT, hv, h]
  · intro h1 h2 d res
    simp [Shader.from_res, shaderKindOf, POSSIBLE_EXT, h1, h2]

/-- Witness for C5: `basic.vert` infers vertex, `basic.frag` infers
fragment, `basic.geom` fails with the stage-detection error. -/
theorem from_res_stage_inference_witness :
    shaderKindOf "basic.vert" = some VERTEX_SHADER ∧
    shaderKindOf "basic.frag" = some FRAGMENT_SHADER ∧
    Shader.from_res failDriver triRes "basic.geom" =
      (Except.error
        (Error.CanNotDetermineShaderTypeForResource "basic.geom"), []) :=
  ⟨(from_res_stage_inference "basic.vert").1 (by decide),
   (from_res_stage_inference "basic.frag").2.1 (by decide),
   (from_res_stage_inference "basic.geom").2.2 (by decide) (by decide)
     failDriver triRes⟩

/-- C10: when the resource name matches neither suffix, `Shader::from_res`
returns the stage-detection error with an empty call trace — so for every
driver and every loader, neither a loader invocation (`loadResource`) nor
any GL driver call occurs: the suffix check strictly precedes both the
load and the compile. -/
theorem from_res_bad_suffix_no_effects (name : String)
    (h1 : ends_with name ".vert" = false)
    (h2 : ends_with name ".frag" = false)
    (d : GLDriver) (res : Resources) :
    Shader.from_res d res name =
      (Except.error (Error.CanNotDetermineShaderTypeForResource name), []) := by
  simp [Shader.from_res, shaderKindOf, POSSIBLE_EXT, h1, h2]

/-- Witness for C10 at `basic.geom`. -/
theorem from_res_bad_suffix_no_effects_witness :
    ends_with "basic.geom" ".vert" = false ∧
    Shader.from_res okDriver triRes "basic.geom" =
      (Except.error
        (Error.CanNotDetermineShaderTypeForResource "basic.geom"), []) :=
  ⟨by decide,
   from_res_bad_suffix_no_effects "basic.geom" (by decide) (by decide)
     okDriver triRes⟩

/-- C6: `Program::from_res` forms exactly the two resource names
`name ++ ".vert"` and `name ++ ".frag"`; if resolving the first fails the
error is propagated unchanged (the second is never resolved — the
`collect` is lazy); if the second fails its error is propagated unchanged;
if both resolve, the result is `from_shaders` on the two shaders with any
link failure rewrapped as `LinkError { name, message }`. -/
theorem program_from_res_behaviour (d : GLDriver) (res : Resources)
    (name : String) :
    resource_names name = [name ++ ".vert", name ++ ".frag"] ∧
    (∀ e t, Shader.from_res d res (name ++ ".vert") = (Except.error e, t) →
      (Program.from_res d res name).1 = Except.error e) ∧
    (∀ s1 t1 e t2,
      Shader.from_res d res (name ++ ".vert") = (Except.ok s1, t1) →
      Shader.from_res d res (name ++ ".frag") = (Except.error e, t2) →
      (Program.from_res d res name).1 = Except.error e) ∧
    (∀ s1 t1 s2 t2,
      Shader.from_res d res (name ++ ".vert") = (Except.ok s1, t1) →
      Shader.from_res d res (name ++ ".frag") = (Except.ok s2, t2) →
      (Program.from_res d res name).1 =
        (match (Program.from_shaders d [s1, s2]).1 with
         | Except.ok p => Except.ok p
         | Except.error m => Except.error (Error.LinkError name m))) := by
  refine ⟨rfl, ?_, ?_, ?_⟩
  · intro e t h
    simp [Program.from_res, resource_names, collectShaders, h]
  · intro s1 t1 e t2 h1 h2
    simp [Program.from_res, resource_names, collectShaders, h1, h2]
  · intro s1 t1 s2 t2 h1 h2
    rcases hp : Program.from_shaders d [s1, s2] with ⟨r, t3⟩
    cases r <;>
      simp [Program.from_res, resource_names, collectShaders, h1, h2, hp]

/-- Witness for C6: with a loader serving `tri.vert`/`tri.frag`, both
shaders compile and the link fails, so `Program::from_res` returns
`LinkError` carrying the base name `tri` and the driver's link log. -/
theorem program_from_res_behaviour_witness :
    (Program.from_res linkFailDriver triRes "tri").1 =
      Except.error (Error.LinkError "tri" "link failed") := by
  have h := (program_from_res_behaviour linkFailDriver triRes "tri").2.2.2
    ⟨VERTEX_SHADER⟩
    [GLCall.loadResource "tri.vert",
     GLCall.createShader VERTEX_SHADER VERTEX_SHADER,
     GLCall.shaderSource VERTEX_SHADER, GLCall.compileShader VERTEX_SHADER]
    ⟨FRAGMENT_SHADER⟩
    [GLCall.loadResource "tri.frag",
     GLCall.createShader FRAGMENT_SHADER FRAGMENT_SHADER,
     GLCall.shaderSource FRAGMENT_SHADER, GLCall.compileShader FRAGMENT_SHADER]
    (by decide) (by decide)
  rw [h]
  decide

/-! ### Claims about `Program::set_uniform1f` -/

/-- C1: refuted on the code.  `u_color` is present in the table with
declared type `FLOAT_VEC4 ≠ FLOAT`, yet `set_uniform1f` returns `Ok(())`
(success, with no driver call): the Rust body builds
`Err("This uniform takes a float")` as a discarded expression statement
and then falls through to `Ok(())`, so the detected type mismatch is never
surfaced to the caller. -/
theorem set_uniform1f_mismatch_reports_success :
    lookupU mismatchProgram.uniforms "u_color" = some ⟨2, FLOAT_VEC4⟩ ∧
    FLOAT_VEC4 ≠ FLOAT ∧
    mismatchProgram.set_uniform1f "u_color" 1 = SetUniformResult.ok [] := by
  decide

/-- C2: refuted on the code.  With `"missing"` absent from the table,
`set_uniform1f` does not return a recoverable `UnknownUniform` error: the
expression `&self.uniforms[&name]` (the `HashMap` `Index` impl) panics, so
the call fails fatally instead of returning a `Result`. -/
theorem set_uniform1f_missing_name_panics :
    lookupU emptyProgram.uniforms "missing" = none ∧
    emptyProgram.set_uniform1f "missing" 0 = SetUniformResult.panicked := by
  decide

/-- C9: for a name present in the table, a type mismatch issues no driver
call at all (in particular no `Uniform1f` upload), and a type match issues
exactly the one `Uniform1f` upload at the table's cached location — no
`GetUniformLocation` (or any other driver lookup) occurs in either case. -/
theorem set_uniform1f_effects (p : Program) (name : String) (value : GLfloat)
    (u : Uniform) (h : lookupU p.uniforms name = some u) :
    (u.typ ≠ FLOAT → p.set_uniform1f name value = SetUniformResult.ok []) ∧
    (u.typ = FLOAT →
      p.set_uniform1f name value =
        SetUniformResult.ok [GLCall.uniform1f u.id value]) := by
  unfold Program.set_uniform1f
  rw [h]
  constructor
  · intro hne
    simp [hne]
  · intro he
    simp [he]

/-- Witness for C9 at a concrete program, name, and value. -/
theorem set_uniform1f_effects_witness :
    lookupU floatProgram.uniforms "u_time" = some ⟨3, FLOAT⟩ ∧
    floatProgram.set_uniform1f "u_time" 9 =
      SetUniformResult.ok [GLCall.uniform1f 3 9] :=
  ⟨by decide,
   (set_uniform1f_effects floatProgram "u_time" 9 ⟨3, FLOAT⟩ (by decide)).2 rfl⟩

/-! ### Lemmas about the uniform map and the reflection loop -/

theorem lookupU_insertU_self (m : UniformMap) (k : String) (v : Uniform) :
    lookupU (insertU m k v) k = some v := by
  induction m with
  | nil => simp [insertU, lookupU]
  | cons hd tl ih =>
    obtain ⟨k2, v2⟩ := hd
    by_cases h : k2 = k
    · simp [insertU, h, lookupU]
    · simp [insertU, h, lookupU, ih]

theorem lookupU_insertU_ne (m : UniformMap) (k k2 : String) (v : Uniform)
    (h : k ≠ k2) : lookupU (insertU m k v) k2 = lookupU m k2 := by
  induction m with
  | nil => simp [insertU, lookupU, h]
  | cons hd tl ih =>
    obtain ⟨k3, v3⟩ := hd
    by_cases h3 : k3 = k
    · simp [insertU, h3, lookupU, h]
    · by_cases h2 : k3 = k2 <;> simp [insertU, h3, lookupU, h2, Ne.symm h, ih]

theorem get_uniforms_loop_trace_mono (d : GLDriver) (pid : Nat) :
    ∀ (l : List Nat) (m : UniformMap) (t : List GLCall) (x : GLCall),
      x ∈ t → x ∈ (get_uniforms_loop d pid m t l).2 := by
  intro l
  induction l with
  | nil => intro m t x hx; simpa [get_uniforms_loop] using hx
  | cons u rest ih =>
    intro m t x hx
    simp only [get_uniforms_loop]
    exact ih _ _ x (by simp [hx])

theorem get_uniforms_loop_calls (d : GLDriver) (pid : Nat) :
    ∀ (l : List Nat) (m : UniformMap) (t : List GLCall) (u : Nat), u ∈ l →
      GLCall.getActiveUniform pid u ∈ (get_uniforms_loop d pid m t l).2 ∧
      GLCall.getUniformLocation pid (d.activeUniform u).1 ∈
        (get_uniforms_loop d pid m t l).2 := by
  intro l
  induction l with
  | nil => intro m t u hu; cases hu
  | cons w rest ih =>
    intro m t u hu
    rcases List.mem_cons.mp hu with h | h
    · subst h
      simp only [get_uniforms_loop]
      exact ⟨get_uniforms_loop_trace_mono d pid rest _ _ _ (by simp),
             get_uniforms_loop_trace_mono d pid rest _ _ _ (by simp)⟩
    · simp only [get_uniforms_loop]
      exact ih _ _ u h

/-! ### Claims about construction, failure paths, and lifecycle -/

/-- C3: refuted on the code.  When the driver reports a link failure,
`Program::from_shaders` creates a program object (id 42 here) and returns
the error, but its trace contains no `DeleteProgram` for that id — and
since no `Program` value is constructed on this path, `Drop` never runs
for it either, so the partially-linked program object leaks.  (A `Program`
that *is* constructed does delete its handle exactly once on drop, as the
last conjunct shows.) -/
theorem from_shaders_link_failure_leaks_program :
    (Program.from_shaders failDriver [⟨1⟩]).1 = Except.error "link failed" ∧
    GLCall.createProgram 42 ∈ (Program.from_shaders failDriver [⟨1⟩]).2 ∧
    GLCall.deleteProgram 42 ∉ (Program.from_shaders failDriver [⟨1⟩]).2 ∧
    Program.drop ⟨42, []⟩ = [GLCall.deleteProgram 42] := by
  decide

/-- C7: whenever the driver reports a failed compile, `shader_from_source`
returns exactly the driver's shader info log as the error; whenever it
reports a failed link, `Program::from_shaders` returns exactly the
driver's program info log as the error. -/
theorem failure_error_is_driver_log (d : GLDriver) (source : String)
    (kind : GLenum) (shaders : List Shader) :
    (d.compileStatus (d.createShader kind) = false →
      (shader_from_source d source kind).1 =
        Except.error (d.shaderInfoLog (d.createShader kind))) ∧
    (d.linkStatus = false →
      (Program.from_shaders d shaders).1 = Except.error d.programInfoLog) := by
  constructor <;> intro h <;> simp [shader_from_source, Program.from_shaders, h]

/-- Witness for C7 on the failing driver. -/
theorem failure_error_is_driver_log_witness :
    (shader_from_source failDriver "src" VERTEX_SHADER).1 =
      Except.error "syntax error" ∧
    (Program.from_shaders failDriver [⟨1⟩]).1 = Except.error "link failed" :=
  ⟨(failure_error_is_driver_log failDriver "src" VERTEX_SHADER [⟨1⟩]).1 rfl,
   (failure_error_is_driver_log failDriver "src" VERTEX_SHADER [⟨1⟩]).2 rfl⟩

/-- C8: on a successful link, `Program::from_shaders` detaches every
attached shader (the detach events precede the reflection queries in the
trace equation), then reflects the uniform table, and returns a `Program`
wrapping the linked handle and that table. -/
theorem from_shaders_success_detaches_and_reflects (d : GLDriver)
    (shaders : List Shader) (h : d.linkStatus = true) :
    Program.from_shaders d shaders =
      (Except.ok ⟨d.createProgramId, (Program.get_uniforms d d.createProgramId).1⟩,
       (GLCall.createProgram d.createProgramId ::
         shaders.map (fun s => GLCall.attachShader d.createProgramId s.id) ++
         [GLCall.linkProgram d.createProgramId]) ++
       shaders.map (fun s => GLCall.detachShader d.createProgramId s.id) ++
       (Program.get_uniforms d d.createProgramId).2) ∧
    ∀ s ∈ shaders,
      GLCall.detachShader d.createProgramId s.id ∈
        (Program.from_shaders d shaders).2 := by
  have he : Program.from_shaders d shaders =
      (Except.ok ⟨d.createProgramId, (Program.get_uniforms d d.createProgramId).1⟩,
       (GLCall.createProgram d.createProgramId ::
         shaders.map (fun s => GLCall.attachShader d.createProgramId s.id) ++
         [GLCall.linkProgram d.createProgramId]) ++
       shaders.map (fun s => GLCall.detachShader d.createProgramId s.id) ++
       (Program.get_uniforms d d.createProgramId).2) := by
    simp [Program.from_shaders, h]
  refine ⟨he, fun s hs => ?_⟩
  rw [he]
  simp only [List.mem_append, List.mem_cons, List.mem_map]
  exact Or.inl (Or.inr ⟨s, hs, rfl⟩)

set_option maxRecDepth 4096 in
/-- C4: refuted on the code.  On a driver reporting two active uniforms,
`u_time : FLOAT` at location `3` and `u_color : FLOAT_VEC4` at location
`-1`, the reflection pass does query name and type per index and resolve
each location separately by the declared name, and the `-1` location is
stored without an error or a skipped entry — but the inserted key is NOT
the declared name: the code ignores the `name_len` it asked
`GetActiveUniform` for and converts the entire 256-space scratch buffer,
so the `HashMap` key is the padded string `name_str` (declared name,
interior NUL, space padding), and a lookup by the declared name itself
misses the table. -/
theorem get_uniforms_key_is_padded_buffer :
    (Program.get_uniforms okDriver 9).1 =
      [(name_str "u_time", ⟨3, FLOAT⟩),
       (name_str "u_color", ⟨-1, FLOAT_VEC4⟩)] ∧
    GLCall.getActiveUniform 9 0 ∈ (Program.get_uniforms okDriver 9).2 ∧
    GLCall.getUniformLocation 9 "u_time" ∈ (Program.get_uniforms okDriver 9).2 ∧
    lookupU (Program.get_uniforms okDriver 9).1 "u_time" = none ∧
    lookupU (Program.get_uniforms okDriver 9).1 (name_str "u_time") =
      some ⟨3, FLOAT⟩ ∧
    name_str "u_time" ≠ "u_time" := by
  decide

set_option maxRecDepth 4096 in
/-- Witness for C8 on the succeeding driver with two shaders. -/
theorem from_shaders_success_witness :
    okDriver.linkStatus = true ∧
    GLCall.detachShader 9 2 ∈ (Program.from_shaders okDriver [⟨1⟩, ⟨2⟩]).2 ∧
    (Program.from_shaders okDriver [⟨1⟩, ⟨2⟩]).1 =
      Except.ok ⟨9, (Program.get_uniforms okDriver 9).1⟩ :=
  ⟨rfl,
   (from_shaders_success_detaches_and_reflects okDriver [⟨1⟩, ⟨2⟩] rfl).2
     ⟨2⟩ (by decide),
   by decide⟩

end RenderGL
